import Mathlib

/-!
# GqX backend: verification of the natural-language specification

Shallow embedding of the GqX FastAPI backend (`src/backend/`) in Lean 4,
with theorems settling the spec's claims about orchestration order, quota
enforcement, retrieval tenant scoping, context assembly, streaming fallback,
credential resolution, and the vector-store enqueue/upsert paths.

Modelling conventions:
  * Python dict-shaped chat messages become the `Msg` structure
    (`role`, `content` strings; a missing `content` key is the empty string,
    matching Python truthiness of `m.get('content')`).
  * Python functions that can raise become `Except PyExc _`; the exception
    classes that matter are listed in `PyExc`.
  * Network and native-library effects (chromadb similarity search, the
    Gemini HTTP call, redis) are abstracted as explicit parameters or state,
    so that the pure control flow of the Python source is kept exactly.
-/

namespace GqX

/-- Exceptions the embedded code can raise, mirroring the Python classes that
the backend's control flow distinguishes. -/
inductive PyExc where
  | attributeError
  | connectionError
  | nameError
  | indexError
  | httpException (status : Nat) (detail : String)
deriving DecidableEq, Repr

/-- A chat message as used by `main.py` (Python dict with `role`/`content`). -/
structure Msg where
  role : String
  content : String
deriving DecidableEq, Repr

/-- A retrieved document as returned by `rag_indexer.query` /
`vector_store.query`: `{'document': ..., 'metadata': {'tenant_id': ...}, 'distance': ...}`.
The metadata is reduced to its `tenant_id` field (`none` = key absent). -/
structure RetrievedDoc where
  document : String
  tenant : Option String
  distance : Int
deriving DecidableEq, Repr

/-- Python `sep.join(xs)`. -/
def joinSep (sep : String) : List String → String
  | [] => ""
  | [x] => x
  | x :: y :: xs => x ++ sep ++ joinSep sep (y :: xs)

/-- `main.py` lines 96-100: scan `reversed(req.messages)` for the first entry
with role `user` and take its content (the last user message). -/
def lastUserContent (messages : List Msg) : Option String :=
  (messages.reverse.find? (fun m => m.role == "user")).map (·.content)

/-- The synthetic system message of `main.py` line 106-107:
`{"role": "system", "content": "Relevant documents:\n" + "\n\n".join(texts)}`. -/
def ragSystemMsg (docs : List RetrievedDoc) : Msg :=
  { role := "system"
    content := "Relevant documents:\n" ++ joinSep "\n\n" (docs.map (·.document)) }

/-- `main.py` lines 93-111 (identically 171-186): context assembly.
`ragQuery` stands for `rag_query(·, k=3)`; the code only issues it when the
last user message exists and its content is truthy (non-empty), and only
prepends the system message when the result list is non-empty.  A `rag_query`
exception is caught and ignored (lines 109-111), which the total function
`ragQuery` has no way to signal; the exception path leaves `messages_to_send`
unchanged, the same as `docs = []`. -/
def assembleMessages (ragEnabled : Bool) (ragQuery : String → List RetrievedDoc)
    (messages : List Msg) : List Msg :=
  if ragEnabled then
    match lastUserContent messages with
    | some c =>
      if c ≠ "" then
        let docs := ragQuery c
        if docs ≠ [] then ragSystemMsg docs :: messages else messages
      else messages
    | none => messages
  else messages

/-- The reference definition stated by claim C5: prepend the system message
whenever rag is enabled, SOME user-role message exists, and retrieval on the
last user content returns a non-empty list — with no condition on the content
being non-empty. -/
def assembleMessagesClaimC5 (ragEnabled : Bool) (ragQuery : String → List RetrievedDoc)
    (messages : List Msg) : List Msg :=
  if ragEnabled then
    match lastUserContent messages with
    | some c =>
      let docs := ragQuery c
      if docs ≠ [] then ragSystemMsg docs :: messages else messages
    | none => messages
  else messages

/-- The amended reference definition: as claim C5, but the augmentation also
requires the last user-role message's content to be non-empty (Python
truthiness of `last_user` at `main.py` line 101). Written with the guard as a
single boolean condition over the optional last-user content. -/
def assembleMessagesAmendedC5 (ragEnabled : Bool) (ragQuery : String → List RetrievedDoc)
    (messages : List Msg) : List Msg :=
  match lastUserContent messages with
  | some c =>
    if ragEnabled && c != "" && !(ragQuery c).isEmpty then
      ragSystemMsg (ragQuery c) :: messages
    else messages
  | none => messages

/-! ## Retrieval (`rag_indexer.py`, `vector_store.py` query paths) -/

/-- The raw result of a chromadb `collection.query(...)` call: parallel rows
of documents, metadata `tenant_id`s and distances (`results['documents']`,
`results['metadatas']`, `results['distances']`). -/
structure ChromaResult where
  documents : List (List String)
  metadatas : List (List (Option String))
  distances : List (List Int)
deriving Repr

/-- Row-wise flattening shared by both query helpers: Python's nested
`for docs, metas, dists in zip(...): for doc, meta, dist in zip(...)`. -/
def flattenRows (res : ChromaResult) : List RetrievedDoc :=
  ((res.documents.zip (res.metadatas.zip res.distances)).map
    (fun row => (row.1.zip (row.2.1.zip row.2.2)).map
      (fun t => RetrievedDoc.mk t.1 t.2.1 t.2.2))).flatten

/-- `rag_indexer.py` lines 62-77, `query(query_text, k)`: embed the query,
run the chromadb similarity search and normalize the rows.  The similarity
search itself is the abstract `collection : String → Nat → ChromaResult`
(query text and `n_results` in, raw rows out).  NOTE: the function takes no
tenant argument and applies no metadata filter — every row that chromadb
returns is passed through. -/
def ragIndexerQuery (collection : String → Nat → ChromaResult)
    (queryText : String) (k : Nat) : List RetrievedDoc :=
  flattenRows (collection queryText k)

/-- `vector_store.py` lines 117-130, the chromadb branch of `query(text, k,
tenant_id)`: same flattening, but rows whose metadata `tenant_id` differs
from a provided (truthy) `tenant_id` are skipped
(`if tenant_id and meta.get('tenant_id') != tenant_id: continue`). -/
def vectorStoreQuery (collection : String → Nat → ChromaResult)
    (queryText : String) (k : Nat) (tenantId : Option String) : List RetrievedDoc :=
  (flattenRows (collection queryText k)).filter
    (fun d => match tenantId with
      | some t => if t = "" then true else d.tenant == some t
      | none => true)

/-- `main.py` lines 94-111: the documents the `/chat` handler retrieves and
merges for an authenticated tenant.  The handler calls `rag_query(last_user,
k=3)` — i.e. `rag_indexer.query`, with no tenant argument — only when rag is
enabled and the last user content is truthy. The `tenantId` parameter is the
authenticated tenant; the body never uses it for retrieval. -/
def chatRetrievedDocs (collection : String → Nat → ChromaResult)
    (ragEnabled : Bool) (_tenantId : String) (messages : List Msg) : List RetrievedDoc :=
  if ragEnabled then
    match lastUserContent messages with
    | some c => if c ≠ "" then ragIndexerQuery collection c 3 else []
    | none => []
  else []

/-! ## Quota check (`main.py` lines 115-126 and 188-200) -/

/-- Redis counter state: the integer value stored under each key. -/
abbrev RedisState := List (String × Nat)

/-- `redis.incr(key)`: atomically increment (create at 1) and return the
post-increment value. -/
def redisIncr (st : RedisState) (key : String) : Nat × RedisState :=
  match List.lookup key st with
  | some v => (v + 1, st.map (fun p => if p.1 = key then (p.1, v + 1) else p))
  | none => (1, (key, 1) :: st)

/-- `main.py` line 117: `f"quota:{tenant_id}:{int(time.time()//60)}"` —
the per-minute bucket key. `now` is `time.time()` truncated to seconds. -/
def bucketKey (tenantId : String) (now : Nat) : String :=
  "quota:" ++ tenantId ++ ":" ++ toString (now / 60)

/-- Outcome of the quota block when redis is configured and reachable. -/
structure QuotaOutcome where
  /-- `True` iff no `HTTPException(429)` was raised. -/
  admitted : Bool
  /-- `some 61` when `redis.expire(key, 61)` was called (first increment). -/
  expirySet : Option Nat
  state : RedisState

/-- `main.py` lines 117-123 with a live redis: increment the bucket counter,
set the 61-second expiry on first increment, and raise 429 iff the
post-increment value exceeds `MAX_REQS_PER_MIN` (default 600). -/
def quotaCheck (st : RedisState) (tenantId : String) (now maxPerMin : Nat) :
    QuotaOutcome :=
  let key := bucketKey tenantId now
  let r := redisIncr st key
  { admitted := decide (r.1 ≤ maxPerMin)
    expirySet := if r.1 = 1 then some 61 else none
    state := r.2 }

/-- The redis attribute of `request.app.state` as the quota block sees it:
absent/None (attribute access raises `AttributeError`), configured but
unreachable (`incr` raises a connection error), or live with counter state. -/
inductive RedisBackend where
  | absent
  | failing
  | working (st : RedisState)

/-- `main.py` lines 115-126: the whole `try/except AttributeError` quota
block. Only `AttributeError` is caught (redis absent → allow); every other
exception — a connection error from a configured-but-unreachable store, or
the 429 `HTTPException` itself — propagates out of the handler. `.ok ()`
means the request proceeds to dispatch. -/
def quotaBlock (b : RedisBackend) (tenantId : String) (now maxPerMin : Nat) :
    Except PyExc Unit :=
  let inner : Except PyExc Unit :=
    match b with
    | .absent => .error .attributeError
    | .failing => .error .connectionError
    | .working st =>
      let o := quotaCheck st tenantId now maxPerMin
      if o.admitted then .ok ()
      else .error (.httpException 429 "Rate limit exceeded")
  match inner with
  | .error .attributeError => .ok ()
  | r => r

/-! ## Orchestration order of the `/chat` handler (`main.py` lines 81-129) -/

/-- The orchestration steps of a chat request. -/
inductive Ev where
  | auth
  | resolveProvider
  | retrieve
  | quotaCheckEv
  | dispatch
deriving DecidableEq, Repr

/-- Linearization of `main.py` `chat` (lines 81-129; `chat_stream` lines
160-216 is step-for-step identical): FastAPI evaluates the
`Depends(get_tenant_from_header)` dependency before the body runs (auth
first); the body then resolves the provider (line 83), runs the optional
retrieval block (lines 94-111, executed when rag is enabled and the last
user content is truthy), then the quota block (lines 115-126), then
dispatches (line 128).  `providerKnown` = `get_provider` returned non-None;
`doesRetrieve` = the rag block actually issues `rag_query`; `admitted` = the
quota block does not raise. -/
def chatTrace (providerKnown doesRetrieve admitted : Bool) : List Ev :=
  [Ev.auth, Ev.resolveProvider] ++
    (if providerKnown then
      (if doesRetrieve then [Ev.retrieve] else []) ++
        [Ev.quotaCheckEv] ++ (if admitted then [Ev.dispatch] else [])
     else [])

/-! ## Streaming fallback (`providers.py` lines 14-23) -/

/-- `BaseProvider.send_messages_stream`'s chunking loop, fuel-indexed:
`fuel` bounds the number of loop iterations (`range(0, len(reply), 64)`
iterates at most `len(reply)` times), each iteration yields `reply[i:i+64]`
and continues past it. -/
def chunks64Aux : Nat → List Char → List (List Char)
  | _, [] => []
  | 0, _ :: _ => []
  | fuel + 1, c :: cs => ((c :: cs).take 64) :: chunks64Aux fuel ((c :: cs).drop 64)

/-- `for i in range(0, len(reply), 64): yield reply[i:i+64]`: slice the reply
into consecutive 64-character chunks. -/
def chunks64 (reply : List Char) : List (List Char) :=
  chunks64Aux reply.length reply

/-- `providers.py` lines 14-23: the base-class streaming fallback calls
`send_messages` once and yields the reply in fixed 64-character slices.
`sendOnce` abstracts the concrete provider's `send_messages` (the reply as a
character list). -/
def sendMessagesStreamBase (sendOnce : List Msg → List Char)
    (messages : List Msg) : List (List Char) :=
  chunks64 (sendOnce messages)

/-! ## Providers (`providers.py` lines 25-173) -/

/-- Outcome of the ambient-credential attempt (`google.auth.default` +
`creds.refresh`, `providers.py` lines 39-47): a bearer token, or any
exception (library missing, no ADC configured, refresh failure). -/
inductive AdcResult where
  | token (t : String)
  | failure
deriving DecidableEq, Repr

/-- The credential source `GeminiProvider.send_messages` ends up using. -/
inductive AuthUsed where
  | adc (token : String)
  | apiKey (k : String)
deriving DecidableEq, Repr

/-- `providers.py` lines 38-52: try ADC first; if that fails and
`self.api_key` is truthy (set and non-empty), use the API key; else no
credentials (`auth_used is None`). -/
def geminiResolveAuth (adc : AdcResult) (apiKey : Option String) : Option AuthUsed :=
  match adc with
  | .token t => some (.adc t)
  | .failure =>
    match apiKey with
    | some k => if k ≠ "" then some (.apiKey k) else none
    | none => none

/-- The fixed no-credentials reply of `providers.py` line 55. -/
def geminiNoCredsReply : String :=
  "(gemini) no credentials available; set GOOGLE_APPLICATION_CREDENTIALS or GEMINI_API_KEY"

/-- `GeminiProvider.send_messages` (`providers.py` lines 31-86): resolve
credentials (ADC then API key); with no credentials return the placeholder
string (line 54-55) — before the message list is ever indexed; otherwise
build `body = {"prompt": messages[-1]['content']}` (line 58, `IndexError` on
an empty list) and run the HTTP call.  `http` abstracts lines 60-86, which
return a string in every branch (success, non-200, exception all produce
strings, never raise). -/
def geminiSendMessages (adc : AdcResult) (apiKey : Option String)
    (http : AuthUsed → String → String) (messages : List Msg) :
    Except PyExc String :=
  match geminiResolveAuth adc apiKey with
  | none => .ok geminiNoCredsReply
  | some a =>
    match messages.getLast? with
    | none => .error .indexError
    | some m => .ok (http a m.content)

/-- `OlamaProvider.send_messages` (`providers.py` lines 146-151): placeholder
when `self.url` is falsy, else echo of `messages[-1]['content']`. -/
def olamaSendMessages (url : Option String) (messages : List Msg) :
    Except PyExc String :=
  if url = none ∨ url = some "" then .ok "(olama) olama URL not configured"
  else
    match messages.getLast? with
    | none => .error .indexError
    | some m => .ok ("(olama) Placeholder reply to: " ++ m.content)

/-- `OpenAIProvider.send_messages` (`providers.py` lines 157-161):
placeholder when `self.api_key` is falsy, else echo of
`messages[-1]['content']`. -/
def openaiSendMessages (apiKey : Option String) (messages : List Msg) :
    Except PyExc String :=
  if apiKey = none ∨ apiKey = some "" then .ok "(openai) API key not set"
  else
    match messages.getLast? with
    | none => .error .indexError
    | some m => .ok ("(openai) Placeholder reply to: " ++ m.content)

/-! ## Vector store upsert/enqueue (`vector_store.py` lines 34-92) -/

/-- Module-level configuration of `vector_store.py` as seen after import:
whether the Pinecone branch is active (`_use_pinecone`, lines 14-21),
whether the chromadb client and embedder initialized (lines 23-31), whether
`REDIS_URL` is set, and whether `asyncio.create_task` can be scheduled
(line 88, fails outside a running event loop). -/
structure VSEnv where
  usePinecone : Bool
  chromaAvailable : Bool
  redisUrl : Option String
  canScheduleTask : Bool

/-- The receipt dict an indexing call returns: `{"upserted": n, "provider": p}`
from `upsert_documents`, or `{"enqueued": n}` from the queue path of
`enqueue_documents`.  Distinct constructors = distinct key sets. -/
inductive Receipt where
  | upserted (count : Nat) (provider : String)
  | enqueued (count : Nat)
deriving DecidableEq, Repr

/-- The key set of the receipt dict, as a caller observes it. -/
def receiptKeys : Receipt → List String
  | .upserted _ _ => ["upserted", "provider"]
  | .enqueued _ => ["enqueued"]

/-- Default ids `["doc_0", "doc_1", ...]` (lines 39-40 and 77). -/
def defaultIds (texts : List String) : List String :=
  (List.range texts.length).map (fun i => "doc_" ++ toString i)

/-- `vector_store.upsert_documents` (lines 34-68), translated with its
control-flow defect intact: lines 55-56 (`idx.upsert(to_upsert)` /
`return {"upserted": ..., "provider": "pinecone"}`) sit OUTSIDE the
`if _use_pinecone:` block and run unconditionally.  When Pinecone is active
the upsert completes and the pinecone receipt is returned; when it is not,
line 55 reads the never-assigned local `idx` and raises `NameError`.  The
chromadb fallback (lines 58-68) is dead code after the unconditional
`return` and is therefore absent from the translation. -/
def upsert_documents (env : VSEnv) (texts : List String)
    (ids : Option (List String)) (_tenantId : Option String) :
    Except PyExc Receipt :=
  let ids := ids.getD (defaultIds texts)
  if env.usePinecone then .ok (.upserted ids.length "pinecone")
  else .error .nameError

/-- What the dead chromadb fallback (lines 58-68) would do if it were
reachable, and what the module docstring ("Pinecone-first, Chromadb
fallback") says `upsert_documents` does: upsert through chromadb when it is
available, else raise `RuntimeError`-like failure.  Used only to state the
divergence; the live code never reaches it. -/
def upsertIntended (env : VSEnv) (texts : List String)
    (ids : Option (List String)) (_tenantId : Option String) :
    Except PyExc Receipt :=
  let ids := ids.getD (defaultIds texts)
  if env.usePinecone then .ok (.upserted ids.length "pinecone")
  else if env.chromaAvailable then .ok (.upserted ids.length "chromadb")
  else .error .nameError

/-- `vector_store.enqueue_documents` (lines 71-92): if `REDIS_URL` is falsy,
fall back to a synchronous `upsert_documents` (line 79); otherwise try to
schedule the async push and return `{"enqueued": len(task['ids'])}`
immediately (lines 87-89); if scheduling raises, fall back to the
synchronous upsert (lines 90-92). -/
def enqueue_documents (env : VSEnv) (texts : List String)
    (ids : Option (List String)) (tenantId : Option String) :
    Except PyExc Receipt :=
  let taskIds := ids.getD (defaultIds texts)
  match env.redisUrl with
  | none => upsert_documents env texts ids tenantId
  | some u =>
    if u = "" then upsert_documents env texts ids tenantId
    else if env.canScheduleTask then .ok (.enqueued taskIds.length)
    else upsert_documents env texts ids tenantId

/-! ## Scenario fixtures and iterated-state helpers -/

/-- A retrieval-store snapshot whose similarity search returns one document
that belongs to tenant `t2` (its metadata `tenant_id` is `"t2"`), whatever
the query. Used to exhibit the cross-tenant retrieval leak. -/
def leakCollection : String → Nat → ChromaResult :=
  fun _ _ => ⟨[["Tenant two's secret doc"]], [[some "t2"]], [[0]]⟩

/-- Redis state after `n` chat requests by the same tenant inside the same
60-second bucket, starting from an empty store. -/
def quotaSeq (t : String) (now m : Nat) : Nat → RedisState
  | 0 => []
  | n + 1 => (quotaCheck (quotaSeq t now m n) t now m).state

/-- Outcome of the `n`-th (1-indexed) same-bucket request by tenant `t`. -/
def nthQuota (t : String) (now m n : Nat) : QuotaOutcome :=
  quotaCheck (quotaSeq t now m (n - 1)) t now m

theorem quotaSeq_eq (t : String) (now m : Nat) (n : Nat) :
    quotaSeq t now m n = if n = 0 then [] else [(bucketKey t now, n)] := by
  induction n with
  | zero => rfl
  | succ k ih =>
    by_cases hk : k = 0
    · subst hk
      simp [quotaSeq, ih, quotaCheck, redisIncr, List.lookup]
    · simp [quotaSeq, ih, hk, quotaCheck, redisIncr, List.lookup]

theorem chunks64Aux_flatten (fuel : Nat) :
    ∀ l : List Char, l.length ≤ fuel → (chunks64Aux fuel l).flatten = l := by
  induction fuel with
  | zero =>
    intro l hl
    have : l = [] := List.length_eq_zero.mp (Nat.le_zero.mp hl)
    subst this
    rfl
  | succ k ih =>
    intro l hl
    cases l with
    | nil => rfl
    | cons c cs =>
      have hdrop : ((c :: cs).drop 64).length ≤ k := by
        simp only [List.length_drop]
        have : (c :: cs).length ≤ k + 1 := hl
        have hpos : 1 ≤ (c :: cs).length := by simp
        omega
      calc (chunks64Aux (k + 1) (c :: cs)).flatten
          = (c :: cs).take 64 ++ (chunks64Aux k ((c :: cs).drop 64)).flatten := by
            rfl
        _ = (c :: cs).take 64 ++ (c :: cs).drop 64 := by rw [ih _ hdrop]
        _ = c :: cs := List.take_append_drop 64 (c :: cs)

theorem chunks64_flatten (l : List Char) : (chunks64 l).flatten = l :=
  chunks64Aux_flatten l.length l (Nat.le_refl _)

theorem chunks64Aux_mem (fuel : Nat) :
    ∀ l : List Char, ∀ c ∈ chunks64Aux fuel l, c ≠ [] ∧ c.length ≤ 64 := by
  induction fuel with
  | zero =>
    intro l c hc
    cases l <;> simp [chunks64Aux] at hc
  | succ k ih =>
    intro l c hc
    cases l with
    | nil => simp [chunks64Aux] at hc
    | cons x xs =>
      rcases List.mem_cons.mp hc with hhd | htl
      · subst hhd
        constructor
        · intro hnil
          simp [List.take_eq_nil_iff] at hnil
        · simp [List.length_take, Nat.min_le_left]
      · exact ih _ c htl

theorem chunks64_mem (l : List Char) :
    ∀ c ∈ chunks64 l, c ≠ [] ∧ c.length ≤ 64 :=
  chunks64Aux_mem l.length l

/-! ## Claim theorems -/

/-- C1 (code_bug): the `/chat` handler's retrieval is NOT tenant-scoped.
With a store holding one document whose metadata `tenant_id` is `"t2"`,
tenant `"t1"`'s chat request retrieves that document (because the handler
calls `rag_indexer.query`, which never filters by tenant) and merges it into
the assembled context; the tenant-aware `vector_store.query`, which the
handler does not call, would have filtered it out. -/
theorem chat_retrieval_cross_tenant_leak :
    chatRetrievedDocs leakCollection true "t1" [⟨"user", "hi"⟩]
      = [⟨"Tenant two's secret doc", some "t2", 0⟩] ∧
    (∀ d ∈ chatRetrievedDocs leakCollection true "t1" [⟨"user", "hi"⟩],
      d.tenant ≠ some "t1") ∧
    vectorStoreQuery leakCollection "hi" 3 (some "t1") = [] ∧
    assembleMessages true (fun c => ragIndexerQuery leakCollection c 3)
        [⟨"user", "hi"⟩]
      = [⟨"system", "Relevant documents:\nTenant two's secret doc"⟩,
         ⟨"user", "hi"⟩] := by
  refine ⟨by decide, by decide, by decide, by decide⟩

/-- C2 (counterexample): on a request with rag enabled and a user message,
the handler's step sequence runs Retrieval strictly BEFORE the quota check
(and resolves the provider before the quota check as well), so the claimed
order "quota before any retrieval query or provider resolution" is false. -/
theorem chat_trace_quota_not_before_retrieval :
    chatTrace true true true
      = [Ev.auth, Ev.resolveProvider, Ev.retrieve, Ev.quotaCheckEv, Ev.dispatch] ∧
    (chatTrace true true true).indexOf Ev.retrieve
      < (chatTrace true true true).indexOf Ev.quotaCheckEv ∧
    (chatTrace true true true).indexOf Ev.resolveProvider
      < (chatTrace true true true).indexOf Ev.quotaCheckEv := by
  refine ⟨by decide, by decide, by decide⟩

/-- C2 (amended): in every chat request trace, authentication comes first
and precedes the quota check, the optional retrieval step precedes the quota
check (not the other way round), and dispatch happens only after the quota
check admits the request. -/
theorem chat_trace_order (pk dr ad : Bool) :
    (chatTrace pk dr ad).head? = some Ev.auth ∧
    (Ev.quotaCheckEv ∈ chatTrace pk dr ad →
      (chatTrace pk dr ad).indexOf Ev.auth
        < (chatTrace pk dr ad).indexOf Ev.quotaCheckEv) ∧
    (Ev.retrieve ∈ chatTrace pk dr ad →
      (chatTrace pk dr ad).indexOf Ev.retrieve
        < (chatTrace pk dr ad).indexOf Ev.quotaCheckEv) ∧
    (Ev.dispatch ∈ chatTrace pk dr ad →
      (chatTrace pk dr ad).indexOf Ev.quotaCheckEv
        < (chatTrace pk dr ad).indexOf Ev.dispatch) := by
  cases pk <;> cases dr <;> cases ad <;> refine ⟨by decide, by decide, by decide, by decide⟩

/-- Witness for `chat_trace_order` at the full trace. -/
theorem chat_trace_order_witness :
    Ev.retrieve ∈ chatTrace true true true ∧
    (chatTrace true true true).indexOf Ev.retrieve
      < (chatTrace true true true).indexOf Ev.quotaCheckEv :=
  ⟨by decide, (chat_trace_order true true true).2.2.1 (by decide)⟩

/-- C4 (counterexample): when the counter store is configured but
unreachable, the quota block does NOT fail open — the connection error
propagates and the request fails, contradicting "any failure of the counter
backend degrades to allow". -/
theorem quota_block_connection_error_propagates :
    quotaBlock RedisBackend.failing "t1" 0 600 = Except.error PyExc.connectionError := by
  rfl

/-- C4 (amended): the quota block fails open exactly when the counter store
is not configured (the attribute access raises `AttributeError`, which is the
only exception the block catches); a connection failure of a configured
store propagates out of the handler and fails the request. -/
theorem quota_block_fail_open_only_when_absent (t : String) (now m : Nat) :
    quotaBlock RedisBackend.absent t now m = Except.ok () ∧
    quotaBlock RedisBackend.failing t now m = Except.error PyExc.connectionError := by
  exact ⟨rfl, rfl⟩

/-- C5 (counterexample): with rag enabled, a single user-role message whose
content is empty, and a retrieval function returning one document, the code
leaves the messages unchanged while the claim's reference definition
prepends the synthetic system message — so the claimed equality fails. -/
theorem assemble_messages_differs_on_empty_user_content :
    assembleMessages true (fun _ => [⟨"X is a thing.", some "t1", 0⟩]) [⟨"user", ""⟩]
      = [⟨"user", ""⟩] ∧
    assembleMessagesClaimC5 true (fun _ => [⟨"X is a thing.", some "t1", 0⟩]) [⟨"user", ""⟩]
      = [⟨"system", "Relevant documents:\nX is a thing."⟩, ⟨"user", ""⟩] ∧
    assembleMessages true (fun _ => [⟨"X is a thing.", some "t1", 0⟩]) [⟨"user", ""⟩]
      ≠ assembleMessagesClaimC5 true (fun _ => [⟨"X is a thing.", some "t1", 0⟩]) [⟨"user", ""⟩] := by
  refine ⟨by decide, by decide, by decide⟩

/-- C5 (amended): the context assembly equals the reference definition once
its condition also requires the last user-role message's content to be
non-empty: prepend exactly one synthetic system message when rag is enabled,
the last user message has non-empty content, and retrieval on that content
returns at least one document; otherwise pass the input through unchanged. -/
theorem assemble_messages_eq_amended (ragEnabled : Bool)
    (ragQuery : String → List RetrievedDoc) (messages : List Msg) :
    assembleMessages ragEnabled ragQuery messages
      = assembleMessagesAmendedC5 ragEnabled ragQuery messages := by
  unfold assembleMessages assembleMessagesAmendedC5
  cases h : lastUserContent messages with
  | none => cases ragEnabled <;> simp
  | some c =>
    cases ragEnabled with
    | false => simp
    | true =>
      by_cases hc : c = ""
      · subst hc; simp
      · by_cases hd : ragQuery c = []
        · simp [hc, hd]
        · simp [hc, hd, List.isEmpty_iff]

/-- C3 (confirmed): quota admission compares the post-increment counter for
the `(tenant, minute-bucket)` key to the ceiling and admits iff it is ≤ the
ceiling, and sets the key's expiry to 61 seconds exactly on the first
increment in the bucket; hence with the default ceiling 600, within one
bucket the 600th request is admitted, the 601st is rejected (429), and the
1st request is admitted and sets the 61-second expiry. -/
theorem quota_admission_spec (t : String) (now m : Nat) :
    (∀ st : RedisState,
      ((quotaCheck st t now m).admitted = true
        ↔ (redisIncr st (bucketKey t now)).1 ≤ m) ∧
      (quotaCheck st t now m).expirySet
        = (if (redisIncr st (bucketKey t now)).1 = 1 then some 61 else none)) ∧
    (nthQuota t now 600 600).admitted = true ∧
    (nthQuota t now 600 601).admitted = false ∧
    (nthQuota t now 600 1).admitted = true ∧
    (nthQuota t now 600 1).expirySet = some 61 := by
  refine ⟨fun st => ⟨by simp [quotaCheck], by simp [quotaCheck]⟩, ?_, ?_, ?_, ?_⟩
  · show (quotaCheck (quotaSeq t now 600 (600 - 1)) t now 600).admitted = true
    rw [quotaSeq_eq]
    norm_num [quotaCheck, redisIncr, List.lookup]
  · show (quotaCheck (quotaSeq t now 600 (601 - 1)) t now 600).admitted = false
    rw [quotaSeq_eq]
    norm_num [quotaCheck, redisIncr, List.lookup]
  · show (quotaCheck (quotaSeq t now 600 (1 - 1)) t now 600).admitted = true
    rw [quotaSeq_eq]
    norm_num [quotaCheck, redisIncr, List.lookup]
  · show (quotaCheck (quotaSeq t now 600 (1 - 1)) t now 600).expirySet = some 61
    rw [quotaSeq_eq]
    norm_num [quotaCheck, redisIncr, List.lookup]

/-- C6 (confirmed): the base streaming fallback is the 64-character slicing
of the send-once reply — a finite list of chunks by construction — whose
concatenation equals the non-streaming reply for the same input, every chunk
being non-empty and at most 64 characters. -/
theorem stream_fallback_concat_eq_reply (sendOnce : List Msg → List Char)
    (messages : List Msg) :
    sendMessagesStreamBase sendOnce messages = chunks64 (sendOnce messages) ∧
    (sendMessagesStreamBase sendOnce messages).flatten = sendOnce messages ∧
    ∀ c ∈ sendMessagesStreamBase sendOnce messages, c ≠ [] ∧ c.length ≤ 64 :=
  ⟨rfl, chunks64_flatten _, chunks64_mem _⟩

/-- Witness for `stream_fallback_concat_eq_reply`: a concrete 70-character
reply streams as a 64-chunk and a 6-chunk whose concatenation is the reply. -/
theorem stream_fallback_concat_eq_reply_witness :
    (sendMessagesStreamBase (fun _ => (List.replicate 70 'a')) []).flatten
      = List.replicate 70 'a' ∧
    (List.replicate 64 'a' ≠ [] ∧ (List.replicate 64 'a').length ≤ 64) :=
  ⟨(stream_fallback_concat_eq_reply (fun _ => (List.replicate 70 'a')) []).2.1,
   (stream_fallback_concat_eq_reply (fun _ => (List.replicate 70 'a')) []).2.2
     (List.replicate 64 'a') (by decide)⟩

/-- C7 (confirmed): Gemini credential resolution tries the ambient/delegated
source (ADC) first — an ADC token wins even when an API key is also
configured; on ADC failure it falls back to a present (non-empty) API key;
and when neither source yields credentials, `send_messages` returns the
fixed placeholder string as an ordinary reply instead of raising. -/
theorem gemini_credential_chain (tok k : String) (apiKey : Option String)
    (http : AuthUsed → String → String) (messages : List Msg) :
    geminiResolveAuth (AdcResult.token tok) apiKey = some (AuthUsed.adc tok) ∧
    (k ≠ "" → geminiResolveAuth AdcResult.failure (some k) = some (AuthUsed.apiKey k)) ∧
    geminiResolveAuth AdcResult.failure none = none ∧
    geminiSendMessages AdcResult.failure none http messages = Except.ok geminiNoCredsReply ∧
    geminiSendMessages AdcResult.failure (some "") http messages
      = Except.ok geminiNoCredsReply := by
  refine ⟨rfl, fun hk => ?_, rfl, rfl, rfl⟩
  simp [geminiResolveAuth, hk]

/-- Witness for `gemini_credential_chain`: ADC failure with key `"sk-1"`
falls back to the API key. -/
theorem gemini_credential_chain_witness :
    geminiResolveAuth AdcResult.failure (some "sk-1") = some (AuthUsed.apiKey "sk-1") :=
  (gemini_credential_chain "tok" "sk-1" none (fun _ _ => "") []).2.1 (by decide)

/-- C8 (counterexample): the two enqueue paths do NOT return the same
receipt shape. With a durable queue configured the receipt is
`{"enqueued": 1}`; without one (Pinecone active) the synchronous path
returns `{"upserted": 1, "provider": "pinecone"}` — different key sets, so a
caller can tell which path ran. -/
theorem enqueue_receipt_shapes_differ :
    enqueue_documents ⟨true, true, some "redis://r", true⟩ ["a"] none (some "t1")
      = Except.ok (Receipt.enqueued 1) ∧
    enqueue_documents ⟨true, true, none, true⟩ ["a"] none (some "t1")
      = Except.ok (Receipt.upserted 1 "pinecone") ∧
    receiptKeys (Receipt.enqueued 1) ≠ receiptKeys (Receipt.upserted 1 "pinecone") := by
  refine ⟨rfl, rfl, by decide⟩

/-- C8 (amended): with a durable queue configured and schedulable the call
returns immediately with `{"enqueued": count}`; with no queue configured, or
when the asynchronous push cannot be scheduled, it performs the upsert
synchronously in-line and returns that upsert's receipt — whose shape
differs from the queue receipt. -/
theorem enqueue_paths (env : VSEnv) (texts : List String)
    (ids : Option (List String)) (tid : Option String) :
    (∀ u, u ≠ "" → env.redisUrl = some u → env.canScheduleTask = true →
      enqueue_documents env texts ids tid
        = Except.ok (Receipt.enqueued (ids.getD (defaultIds texts)).length)) ∧
    (env.redisUrl = none →
      enqueue_documents env texts ids tid = upsert_documents env texts ids tid) ∧
    (∀ u, u ≠ "" → env.redisUrl = some u → env.canScheduleTask = false →
      enqueue_documents env texts ids tid = upsert_documents env texts ids tid) := by
  refine ⟨fun u hu hr hs => ?_, fun hr => ?_, fun u hu hr hs => ?_⟩
  · simp [enqueue_documents, hr, hu, hs]
  · simp [enqueue_documents, hr]
  · simp [enqueue_documents, hr, hu, hs]

/-- Witness for `enqueue_paths`: a configured, schedulable queue accepts one
document and reports `{"enqueued": 1}`. -/
theorem enqueue_paths_witness :
    enqueue_documents ⟨true, true, some "redis://r", true⟩ ["a"] none none
      = Except.ok (Receipt.enqueued ((none : Option (List String)).getD (defaultIds ["a"])).length) :=
  (enqueue_paths ⟨true, true, some "redis://r", true⟩ ["a"] none none).1
    "redis://r" (by decide) rfl rfl

/-- C9 (code_bug): with Pinecone not configured and chromadb available, the
live `upsert_documents` raises `NameError` (line 55 reads the never-assigned
`idx`; the chromadb fallback is dead code behind the unconditional `return`
on line 56), whereas the intended Pinecone-first/chromadb-fallback behaviour
completes the upsert through chromadb and returns its receipt. -/
theorem upsert_fallback_unreachable :
    upsert_documents ⟨false, true, none, false⟩ ["a"] none (some "t1")
      = Except.error PyExc.nameError ∧
    upsertIntended ⟨false, true, none, false⟩ ["a"] none (some "t1")
      = Except.ok (Receipt.upserted 1 "chromadb") := by
  exact ⟨rfl, rfl⟩

/-- C10 (counterexample): on the empty message sequence a provider does not
always fail with an index error — an unconfigured provider returns its
placeholder reply before ever indexing `messages[-1]`: Olama without a URL,
OpenAI without a key, and Gemini with no resolvable credentials all return
`.ok` placeholder strings on `[]`. -/
theorem providers_empty_messages_placeholders :
    olamaSendMessages none [] = Except.ok "(olama) olama URL not configured" ∧
    openaiSendMessages none [] = Except.ok "(openai) API key not set" ∧
    geminiSendMessages AdcResult.failure none (fun _ _ => "") []
      = Except.ok geminiNoCredsReply := by
  exact ⟨rfl, rfl, rfl⟩

/-- C10 (amended): every provider reads `messages[-1]` as the prompt only
after its configuration/credential check succeeds, so on the empty message
sequence a provider raises `IndexError` exactly when it is configured
(Gemini with resolved credentials, Olama with a non-empty URL, OpenAI with a
non-empty key); and with a non-empty message sequence each configured
provider returns a reply rather than an error. -/
theorem providers_empty_messages_index_error (tok u k : String)
    (apiKey : Option String) (http : AuthUsed → String → String)
    (messages : List Msg) :
    geminiSendMessages (AdcResult.token tok) apiKey http [] = Except.error PyExc.indexError ∧
    (u ≠ "" → olamaSendMessages (some u) [] = Except.error PyExc.indexError) ∧
    (k ≠ "" → openaiSendMessages (some k) [] = Except.error PyExc.indexError) ∧
    (messages ≠ [] →
      (∃ r, geminiSendMessages (AdcResult.token tok) apiKey http messages = Except.ok r) ∧
      (u ≠ "" → ∃ r, olamaSendMessages (some u) messages = Except.ok r) ∧
      (k ≠ "" → ∃ r, openaiSendMessages (some k) messages = Except.ok r)) := by
  obtain hlast : messages ≠ [] → ∃ m, messages.getLast? = some m := by
    intro hm
    exact ⟨messages.getLast hm, List.getLast?_eq_getLast _ hm⟩
  refine ⟨rfl, fun hu => ?_, fun hk => ?_, fun hm => ?_⟩
  · simp [olamaSendMessages, hu]
  · simp [openaiSendMessages, hk]
  · obtain ⟨m, hm'⟩ := hlast hm
    refine ⟨⟨http (AuthUsed.adc tok) m.content, ?_⟩,
      fun hu => ⟨"(olama) Placeholder reply to: " ++ m.content, ?_⟩,
      fun hk => ⟨"(openai) Placeholder reply to: " ++ m.content, ?_⟩⟩
    · simp [geminiSendMessages, geminiResolveAuth, hm']
    · simp [olamaSendMessages, hu, hm']
    · simp [openaiSendMessages, hk, hm']

/-- Witness for `providers_empty_messages_index_error`: a configured Olama
(URL `"http://l"`) raises `IndexError` on `[]`, and replies on a singleton. -/
theorem providers_empty_messages_index_error_witness :
    olamaSendMessages (some "http://l") [] = Except.error PyExc.indexError ∧
    ∃ r, olamaSendMessages (some "http://l") [⟨"user", "hi"⟩] = Except.ok r :=
  ⟨(providers_empty_messages_index_error "tok" "http://l" "sk" none (fun _ _ => "")
      [⟨"user", "hi"⟩]).2.1 (by decide),
   ((providers_empty_messages_index_error "tok" "http://l" "sk" none (fun _ _ => "")
      [⟨"user", "hi"⟩]).2.2.2 (by decide)).2.1 (by decide)⟩

end GqX
